import Mathlib

/-!
Shallow embedding of the classification-and-template-rendering core of
`dockerfile-generator.js` (functions `detectAppType`, `generateDockerfile`,
`generateReactDockerfile`, `generateNodeDockerfile`, `generatePythonDockerfile`,
`generateGenericDockerfile`, `generateDockerignore`, `generateDockerCompose`).

Modelling conventions:
- JavaScript strings are modelled as Lean `String` (a wrapper around
  `List Char`); the per-character operations the source uses
  (`toLowerCase`, `replace` with a single-character class, `endsWith`,
  `split(' ')`, the regex `PORT=(\d+)`) are ASCII-faithful.
- A parsed `package.json` is modelled by `PackageJson`: the only fields the
  source reads are `dependencies`, `devDependencies` and `scripts`.  An
  absent `dependencies`/`devDependencies` object behaves exactly like an
  empty one under the source's spread-merge, so both are the empty list;
  `scripts` is `Option` because the source tests its object-truthiness
  (`if (appType.packageJson.scripts)`) before the port scan.
- JavaScript truthiness of a looked-up version string (`deps.react`,
  `scripts?.start || default`) is `truthy`: present and non-empty.
- The raw manifest file is `ManifestFile`: either well-formed (carrying the
  parsed document) or malformed, in which case `JSON.parse` throws — the
  source propagates this, modelled as `Except.error`.
-/

namespace DockerfileGen

/-- The closed enumeration of detected application types
(`'react' | 'node' | 'python' | 'generic'` in the source). -/
inductive AppType : Type where
  | react
  | node
  | python
  | generic
deriving DecidableEq

/-- The fields of a parsed `package.json` that the source reads.
Dependency maps are association lists of package name to version string,
in document order. -/
structure PackageJson : Type where
  dependencies : List (String × String) := []
  devDependencies : List (String × String) := []
  scripts : Option (List (String × String)) := none
deriving DecidableEq

/-- Property lookup on a parsed JSON object (keys are distinct in
`JSON.parse` output, so first-match lookup is exact). -/
def jsLookup (l : List (String × String)) (k : String) : Option String :=
  match l with
  | [] => none
  | (k', v) :: rest => if k' = k then some v else jsLookup rest k

/-- The source's `{ ...packageJson.dependencies, ...packageJson.devDependencies }`
merge followed by property access: a later spread overrides, so
`devDependencies` wins on duplicate keys. -/
def mergedDep (pj : PackageJson) (k : String) : Option String :=
  match jsLookup pj.devDependencies k with
  | some v => some v
  | none => jsLookup pj.dependencies k

/-- JavaScript truthiness of an optionally-present version string:
`undefined` and the empty string are falsy. -/
def truthy : Option String → Bool
  | none => false
  | some s => !(s == "")

/-- A manifest file on disk: its content either parses as a `package.json`
document or is malformed (in which case `JSON.parse` throws). -/
inductive ManifestFile : Type where
  | wellFormed (pj : PackageJson)
  | malformed
deriving DecidableEq

/-- The input the classifier inspects: the optional `package.json` in the
directory root and the directory's shallow file listing. -/
structure Dir : Type where
  manifestFile : Option ManifestFile
  listing : List String
deriving DecidableEq

/-- The error taxonomy of the core: `JSON.parse` throwing on a present but
malformed manifest. -/
inductive GenError : Type where
  | manifestParseError
deriving DecidableEq

/-- The source's detection result object: a type tag plus, on the
manifest-bearing branches, the parsed `package.json`. -/
structure DetectionResult : Type where
  type : AppType
  packageJson : Option PackageJson
deriving DecidableEq

/-- `detectAppType` from the source: manifest branch first (react, then
recognized server frameworks, then default node), then the Python
heuristics (`.py` entry or `requirements.txt`), then generic. -/
def detectAppType (d : Dir) : Except GenError DetectionResult :=
  match d.manifestFile with
  | some ManifestFile.malformed => Except.error GenError.manifestParseError
  | some (ManifestFile.wellFormed pj) =>
      if truthy (mergedDep pj "react") then
        Except.ok { type := AppType.react, packageJson := some pj }
      else if truthy (mergedDep pj "express") || truthy (mergedDep pj "koa") ||
              truthy (mergedDep pj "hapi") || truthy (mergedDep pj "fastify") then
        Except.ok { type := AppType.node, packageJson := some pj }
      else
        Except.ok { type := AppType.node, packageJson := some pj }
  | none =>
      if d.listing.any (fun file => file.endsWith ".py") ||
         d.listing.contains "requirements.txt" then
        Except.ok { type := AppType.python, packageJson := none }
      else
        Except.ok { type := AppType.generic, packageJson := none }

/-- JavaScript `s.split(' ')[0]`: the characters before the first space
(the whole string when it has no space; empty when it starts with one). -/
def firstSpaceToken (s : String) : String :=
  String.mk (s.data.takeWhile (fun c => !(c == ' ')))

/-- JavaScript `a || b` on an optionally-present script string: the default
replaces both an absent and an empty (falsy) value. -/
def jsOrDefault (o : Option String) (dflt : String) : String :=
  match o with
  | none => dflt
  | some s => if s = "" then dflt else s

/-- Optional-chaining script lookup, `packageJson.scripts?.<name>`. -/
def scriptLookup (pj : PackageJson) (k : String) : Option String :=
  match pj.scripts with
  | none => none
  | some scripts => jsLookup scripts k

/-- Attempt of the regex `PORT=(\d+)` anchored at the start of the
character list: on `PORT=` followed by at least one digit, capture the
maximal digit run. -/
def matchPortAt : List Char → Option (List Char)
  | 'P' :: 'O' :: 'R' :: 'T' :: '=' :: rest =>
      let ds := rest.takeWhile Char.isDigit
      if ds.isEmpty then none else some ds
  | _ => none

/-- First (leftmost) match of `PORT=(\d+)`: the regex engine tries each
position left to right. -/
def findPortDigits : List Char → Option (List Char)
  | [] => none
  | c :: rest =>
      match matchPortAt (c :: rest) with
      | some ds => some ds
      | none => findPortDigits rest

/-- The source's port computation in `generateNodeDockerfile`: when the
`scripts` object exists, `Object.values(scripts).join(' ')` is scanned with
`/PORT=(\d+)/`; the first match's digits (as a string, verbatim) are used,
else the default `3000`. -/
def nodePort (pj : PackageJson) : String :=
  match pj.scripts with
  | none => "3000"
  | some scripts =>
      let scriptValues := String.intercalate " " (scripts.map (fun kv => kv.2))
      match findPortDigits scriptValues.data with
      | some ds => String.mk ds
      | none => "3000"

/-- `generateNodeDockerfile` from the source: the template with the scanned
port and the first space-delimited token of the resolved start script. -/
def generateNodeDockerfile (pj : PackageJson) : String :=
  let startScript := jsOrDefault (scriptLookup pj "start") "node server.js"
  let port := nodePort pj
  "# Dockerfile for Node.js application\nFROM node:16-alpine\n\n# Create app directory\nWORKDIR /app\n\n# Copy package.json and package-lock.json\nCOPY package*.json ./\n\n# Install dependencies\nRUN npm ci\n\n# Copy the rest of the code\nCOPY . .\n\n# Expose the port the app will run on\nEXPOSE " ++
    port ++
    "\n\n# Start the application\nCMD [\"npm\", \"run\", \"" ++
    firstSpaceToken startScript ++
    "\"]\n"

/-- `generateReactDockerfile` from the source: the two-stage template with
the first space-delimited token of the resolved build script. -/
def generateReactDockerfile (pj : PackageJson) : String :=
  let buildScript := jsOrDefault (scriptLookup pj "build") "react-scripts build"
  "# Multi-stage build for React application\nFROM node:16-alpine AS build\n\n# Set working directory\nWORKDIR /app\n\n# Copy package.json and package-lock.json\nCOPY package*.json ./\n\n# Install dependencies\nRUN npm ci\n\n# Copy the rest of the code\nCOPY . .\n\n# Build the application\nRUN npm run " ++
    firstSpaceToken buildScript ++
    "\n\n# Production stage\nFROM nginx:alpine AS production\n\n# Copy build files from previous stage\nCOPY --from=build /app/build /usr/share/nginx/html\n\n# Copy nginx configuration if it exists\nCOPY nginx.conf /etc/nginx/conf.d/default.conf 2>/dev/null || :\n\n# Expose port\nEXPOSE 80\n\n# Start Nginx\nCMD [\"nginx\", \"-g\", \"daemon off;\"]\n"

/-- `generatePythonDockerfile` from the source (constant template). -/
def generatePythonDockerfile : String :=
  "# Dockerfile for Python application\nFROM python:3.9-slim\n\n# Set working directory\nWORKDIR /app\n\n# Copy requirements\nCOPY requirements.txt .\n\n# Install dependencies\nRUN pip install --no-cache-dir -r requirements.txt\n\n# Copy the rest of the code\nCOPY . .\n\n# Expose port\nEXPOSE 8000\n\n# Start the application\nCMD [\"python\", \"app.py\"]\n"

/-- `generateGenericDockerfile` from the source (constant template; the
install, expose and start lines are present only as comments). -/
def generateGenericDockerfile : String :=
  "# Generic Dockerfile\nFROM ubuntu:20.04\n\n# Set working directory\nWORKDIR /app\n\n# Copy application files\nCOPY . .\n\n# Install dependencies\n# RUN apt-get update && apt-get install -y some-package\n\n# Expose port\n# EXPOSE 8080\n\n# Start the application\n# CMD [\"./start.sh\"]\n"

/-- `generateDockerfile` from the source: dispatch on the detected type.
On the react/node branches the source dereferences `appType.packageJson`,
which `detectAppType` always populates there; the `getD` default is the
unreachable-case value. -/
def generateDockerfile (r : DetectionResult) : String :=
  match r.type with
  | AppType.react => generateReactDockerfile (r.packageJson.getD {})
  | AppType.node => generateNodeDockerfile (r.packageJson.getD {})
  | AppType.python => generatePythonDockerfile
  | AppType.generic => generateGenericDockerfile

/-- `generateDockerignore` from the source: fixed baseline plus the
node/react block or the python block. -/
def generateDockerignore (r : DetectionResult) : String :=
  let base := "# .dockerignore\n.git\n.gitignore\n.github\n.vscode\n.idea\n*.md\n!README.md\n"
  match r.type with
  | AppType.react =>
      base ++ "node_modules\nnpm-debug.log\nDockerfile\n.dockerignore\nbuild\ndist\ncoverage\n"
  | AppType.node =>
      base ++ "node_modules\nnpm-debug.log\nDockerfile\n.dockerignore\nbuild\ndist\ncoverage\n"
  | AppType.python =>
      base ++ "__pycache__/\n*.py[cod]\n*$py.class\n*.so\n.Python\nenv/\nbuild/\ndevelop-eggs/\ndist/\ndownloads/\neggs/\n.eggs/\nlib/\nlib64/\nparts/\nsdist/\nvar/\n*.egg-info/\n.installed.cfg\n*.egg\nvenv/\nENV/\n"
  | AppType.generic => base

/-- JavaScript `s.toLowerCase()` restricted to its ASCII action
(`Char.toLower` lower-cases exactly the ASCII uppercase letters). -/
def jsToLowerCase (s : String) : String :=
  String.mk (s.data.map Char.toLower)

/-- Membership in the character class `[a-z0-9]`. -/
def isLowerAlnum (c : Char) : Bool :=
  ('a' ≤ c && c ≤ 'z') || ('0' ≤ c && c ≤ '9')

/-- JavaScript `s.replace(/[^a-z0-9]/g, '-')`. -/
def replaceNonAlnum (s : String) : String :=
  String.mk (s.data.map (fun c => if isLowerAlnum c then c else '-'))

/-- The source's `appName` derivation in `generateDockerCompose`:
`path.basename(absolutePath).toLowerCase().replace(/[^a-z0-9]/g, '-')`. -/
def serviceName (baseName : String) : String :=
  replaceNonAlnum (jsToLowerCase baseName)

/-- The source's compose-port selection: `'3000'`, overridden to `'80'` for
react and `'8000'` for python; node and generic keep `'3000'`. -/
def composePort (t : AppType) : String :=
  if t = AppType.react then "80"
  else if t = AppType.python then "8000"
  else "3000"

/-- `generateDockerCompose` from the source: the single-service template
with the service name and the compose port spliced in. -/
def generateDockerCompose (r : DetectionResult) (baseName : String) : String :=
  let port := composePort r.type
  let appName := serviceName baseName
  "version: '3'\nservices:\n  " ++ appName ++
    ":\n    build: .\n    ports:\n      - \"" ++ port ++ ":" ++ port ++
    "\"\n    volumes:\n      - .:/app\n    # environment:\n    #   - NODE_ENV=development\n"

instance {ε α : Type} [DecidableEq ε] [DecidableEq α] : DecidableEq (Except ε α) :=
  fun a b =>
    match a, b with
    | Except.ok x, Except.ok y =>
        if h : x = y then isTrue (by rw [h]) else isFalse (by intro hh; cases hh; exact h rfl)
    | Except.error x, Except.error y =>
        if h : x = y then isTrue (by rw [h]) else isFalse (by intro hh; cases hh; exact h rfl)
    | Except.ok _, Except.error _ => isFalse (by intro hh; cases hh)
    | Except.error _, Except.ok _ => isFalse (by intro hh; cases hh)

/-- The classify-then-render pipeline: one classification, then the three
rendered documents (build file, ignore file, compose file), as the main
script performs it. -/
def runPipeline (d : Dir) (baseName : String) :
    Except GenError (String × String × String) :=
  match detectAppType d with
  | Except.error e => Except.error e
  | Except.ok r =>
      Except.ok (generateDockerfile r, generateDockerignore r, generateDockerCompose r baseName)

/-! Definitions following the specification's wording, for comparison with
the source-derived definitions above. -/

/-- Following the specification text for the NodeGeneric port: the first
match of `PORT=<digits>` in the concatenation (no separator) of all script
command strings, else the default `3000`. -/
def portOfScriptConcat (pj : PackageJson) : String :=
  match findPortDigits (String.join ((pj.scripts.getD []).map (fun kv => kv.2))).data with
  | some ds => String.mk ds
  | none => "3000"

/-- Following the specification text, with the source's actual separator:
the first match of `PORT=<digits>` in the space-separated join of all
script command strings, else the default `3000`. -/
def portOfScriptJoin (pj : PackageJson) : String :=
  match findPortDigits (String.intercalate " " ((pj.scripts.getD []).map (fun kv => kv.2))).data with
  | some ds => String.mk ds
  | none => "3000"

/-- Following the specification text for the start token: the first
whitespace-delimited token of a command line (leading whitespace skipped,
token ends at any whitespace character). -/
def firstWhitespaceToken (s : String) : String :=
  String.mk ((s.data.dropWhile Char.isWhitespace).takeWhile (fun c => !(c.isWhitespace)))

/-- Concrete manifests used as counterexample/witness inputs. -/
def reactEmptyPj : PackageJson := { dependencies := [("react", "")] }

def reactFullPj : PackageJson :=
  ⟨[("react", "^18.2.0"), ("express", "^4.18.0")], [("jest", "^29.0.0")], none⟩

def expressPj : PackageJson := { dependencies := [("express", "^4.18.0")] }

def emptyPj : PackageJson := ⟨[], [], none⟩

def splitScriptsPj : PackageJson := { scripts := some [("a", "PORT="), ("b", "5")] }

def tabStartPj : PackageJson := { scripts := some [("start", "node\tserver.js x")] }

def emptyStartPj : PackageJson := { scripts := some [("start", "")] }

def portScriptPj : PackageJson := { scripts := some [("start", "PORT=4000 node server.js")] }

/-- A substring exhibited by an explicit decomposition of the whole
document is an infix of its character list. -/
theorem str_infix_of_decomp {p s : String} (a b : String) (h : s = a ++ p ++ b) :
    p.data <:+: s.data :=
  ⟨a.data, b.data, by rw [h]; simp [String.data_append]⟩

/-- The source's node port equals the port described by the specification
once the separator is made explicit: both scan the space-joined script
values and default to `3000`. -/
theorem nodePort_eq_portOfScriptJoin (pj : PackageJson) :
    nodePort pj = portOfScriptJoin pj := by
  cases h : pj.scripts with
  | none =>
      have he : (String.intercalate " " ([] : List String)).data = [] := by decide
      simp [nodePort, portOfScriptJoin, h, he, findPortDigits]
  | some scripts => simp [nodePort, portOfScriptJoin, h]

/-- C1 (amended): for every directory whose manifest parses successfully
and whose merged dependency lookup (devDependencies overriding
dependencies) maps `react` to a truthy (non-empty) version string,
`detectAppType` returns the react category with that manifest, regardless
of any other keys present. -/
theorem C1_react_classification (d : Dir) (pj : PackageJson)
    (hm : d.manifestFile = some (ManifestFile.wellFormed pj))
    (hr : truthy (mergedDep pj "react") = true) :
    detectAppType d = Except.ok { type := AppType.react, packageJson := some pj } := by
  simp [detectAppType, hm, hr]

/-- C1 witness: a manifest with `react` in `dependencies` and other keys
present in both maps is classified react. -/
theorem C1_react_classification_witness :
    detectAppType ⟨some (ManifestFile.wellFormed reactFullPj), ["package.json"]⟩ =
      Except.ok ⟨AppType.react, some reactFullPj⟩ :=
  C1_react_classification _ _ rfl (by decide)

set_option maxRecDepth 20000 in
/-- C1 counterexample: a manifest whose `dependencies` contain the key
`react` mapped to the empty string — the key is present, yet the source's
truthiness test fails and the node category is returned, so classification
does not depend on key presence alone. -/
theorem C1_counterexample :
    detectAppType ⟨some (ManifestFile.wellFormed reactEmptyPj), ["package.json"]⟩ =
      Except.ok ⟨AppType.node, some reactEmptyPj⟩ ∧
    jsLookup reactEmptyPj.dependencies "react" = some "" ∧
    AppType.node ≠ AppType.react := by
  refine ⟨by decide, by decide, by decide⟩

/-- C2: `detectAppType` returns the manifest-parse error exactly when a
manifest file is present and malformed; in every other case it is total
and returns a detection result (no fallback classification of a malformed
manifest). -/
theorem C2_parse_error_iff (d : Dir) :
    (detectAppType d = Except.error GenError.manifestParseError ↔
      d.manifestFile = some ManifestFile.malformed) ∧
    (d.manifestFile ≠ some ManifestFile.malformed →
      ∃ r : DetectionResult, detectAppType d = Except.ok r) := by
  cases hm : d.manifestFile with
  | none =>
      refine ⟨⟨fun h => ?_, fun h => ?_⟩, fun _ => ?_⟩
      · simp only [detectAppType, hm] at h
        split at h <;> cases h
      · cases h
      · simp only [detectAppType, hm]
        split <;> exact ⟨_, rfl⟩
  | some mf =>
      cases mf with
      | wellFormed pj =>
          refine ⟨⟨fun h => ?_, fun h => ?_⟩, fun _ => ?_⟩
          · simp only [detectAppType, hm, ite_self] at h
            split at h <;> cases h
          · simp at h
          · simp only [detectAppType, hm, ite_self]
            split <;> exact ⟨_, rfl⟩
      | malformed =>
          refine ⟨⟨fun _ => rfl, fun _ => ?_⟩, fun h => absurd rfl h⟩
          simp only [detectAppType, hm]

/-- C2 witness: a directory with no manifest is classified without error,
and a malformed manifest is a parse error. -/
theorem C2_parse_error_iff_witness :
    (∃ r : DetectionResult,
      detectAppType ⟨none, ["main.go"]⟩ = Except.ok r) ∧
    detectAppType ⟨some ManifestFile.malformed, ["package.json"]⟩ =
      Except.error GenError.manifestParseError :=
  ⟨(C2_parse_error_iff ⟨none, ["main.go"]⟩).2 (by simp),
   (C2_parse_error_iff ⟨some ManifestFile.malformed, ["package.json"]⟩).1.2 rfl⟩

/-- C5: a successfully parsed manifest with no `react` key in either
dependency map is classified node, whether or not any of the recognized
framework keys is present. -/
theorem C5_node_when_no_react (d : Dir) (pj : PackageJson)
    (hm : d.manifestFile = some (ManifestFile.wellFormed pj))
    (h1 : jsLookup pj.dependencies "react" = none)
    (h2 : jsLookup pj.devDependencies "react" = none) :
    detectAppType d = Except.ok { type := AppType.node, packageJson := some pj } := by
  have hr : mergedDep pj "react" = none := by rw [mergedDep, h2, h1]
  simp only [detectAppType, hm, hr]
  simp [truthy]

/-- C5 witness: an express manifest (framework key present) and a bare
manifest (no recognized key) are both classified node. -/
theorem C5_node_when_no_react_witness :
    detectAppType ⟨some (ManifestFile.wellFormed expressPj), ["package.json"]⟩ =
      Except.ok ⟨AppType.node, some expressPj⟩ ∧
    detectAppType ⟨some (ManifestFile.wellFormed emptyPj), ["package.json"]⟩ =
      Except.ok ⟨AppType.node, some emptyPj⟩ :=
  ⟨C5_node_when_no_react _ _ rfl (by decide) (by decide),
   C5_node_when_no_react _ _ rfl (by decide) (by decide)⟩

/-- C8: the compose service name is obtained by lower-casing the base
directory name and replacing every character outside `[a-z0-9]` with `-`
(stated pointwise), and `My App!2` yields `my-app-2`. -/
theorem C8_service_name :
    (∀ baseName : String,
      serviceName baseName =
        String.mk (baseName.data.map (fun c =>
          if isLowerAlnum c.toLower then c.toLower else '-'))) ∧
    serviceName "My App!2" = "my-app-2" := by
  refine ⟨fun baseName => ?_, by decide⟩
  simp only [serviceName, replaceNonAlnum, jsToLowerCase, List.map_map]
  rfl

/-- C9: the classify-then-render pipeline is a pure function of the
directory contents and base name, so two invocations on identical inputs
produce identical output documents. -/
theorem C9_pipeline_deterministic :
    ∀ (d : Dir) (baseName : String), runPipeline d baseName = runPipeline d baseName :=
  fun _ _ => rfl

/-- Shared decomposition of the node build file around its `CMD` line: the
launch command is a package-script invocation of the first space-delimited
token of the resolved start script. -/
theorem generateNodeDockerfile_cmd_decomp (pj : PackageJson) :
    ∃ a : String,
      generateNodeDockerfile pj =
        a ++ ("CMD [\"npm\", \"run\", \"" ++
          firstSpaceToken (jsOrDefault (scriptLookup pj "start") "node server.js") ++ "\"]\n") := by
  refine ⟨("# Dockerfile for Node.js application\nFROM node:16-alpine\n\n# Create app directory\nWORKDIR /app\n\n# Copy package.json and package-lock.json\nCOPY package*.json ./\n\n# Install dependencies\nRUN npm ci\n\n# Copy the rest of the code\nCOPY . .\n\n# Expose the port the app will run on\nEXPOSE " : String) ++ nodePort pj ++ "\n\n# Start the application\n", ?_⟩
  show ("# Dockerfile for Node.js application\nFROM node:16-alpine\n\n# Create app directory\nWORKDIR /app\n\n# Copy package.json and package-lock.json\nCOPY package*.json ./\n\n# Install dependencies\nRUN npm ci\n\n# Copy the rest of the code\nCOPY . .\n\n# Expose the port the app will run on\nEXPOSE " : String) ++
      nodePort pj ++ "\n\n# Start the application\nCMD [\"npm\", \"run\", \"" ++
      firstSpaceToken (jsOrDefault (scriptLookup pj "start") "node server.js") ++ "\"]\n" = _
  rw [show ("\n\n# Start the application\nCMD [\"npm\", \"run\", \"" : String) =
      "\n\n# Start the application\n" ++ "CMD [\"npm\", \"run\", \"" from rfl]
  simp only [String.append_assoc]

/-- C3 (amended): the node build file exposes exactly the port obtained by
scanning the space-separated join of all script command strings for the
first `PORT=<digits>` match, with default `3000`; the spec's example with
`PORT=4000` yields `4000`, and scripts with no `PORT=` yield `3000`. -/
theorem C3_node_port :
    (∀ pj : PackageJson,
      nodePort pj = portOfScriptJoin pj ∧
      ∃ tok : String,
        generateNodeDockerfile pj =
          ("# Dockerfile for Node.js application\nFROM node:16-alpine\n\n# Create app directory\nWORKDIR /app\n\n# Copy package.json and package-lock.json\nCOPY package*.json ./\n\n# Install dependencies\nRUN npm ci\n\n# Copy the rest of the code\nCOPY . .\n\n# Expose the port the app will run on\nEXPOSE " : String) ++
            portOfScriptJoin pj ++ "\n\n# Start the application\nCMD [\"npm\", \"run\", \"" ++
            tok ++ "\"]\n") ∧
    nodePort ⟨[], [], some [("dev", "PORT=4000 node x.js"), ("start", "node y.js")]⟩ = "4000" ∧
    nodePort ⟨[], [], some [("start", "node y.js")]⟩ = "3000" := by
  refine ⟨fun pj => ⟨nodePort_eq_portOfScriptJoin pj, ?_⟩, by decide, by decide⟩
  refine ⟨firstSpaceToken (jsOrDefault (scriptLookup pj "start") "node server.js"), ?_⟩
  rw [← nodePort_eq_portOfScriptJoin pj]
  rfl

set_option maxRecDepth 20000 in
/-- C3 counterexample: scripts `a ↦ "PORT="`, `b ↦ "5"`.  Their plain
concatenation contains the match `PORT=5`, so the claim's port is `5`, but
the source joins the values with a space (`"PORT= 5"`), finds no match,
and renders the default `EXPOSE 3000`. -/
theorem C3_counterexample :
    portOfScriptConcat splitScriptsPj = "5" ∧
    generateNodeDockerfile splitScriptsPj =
      "# Dockerfile for Node.js application\nFROM node:16-alpine\n\n# Create app directory\nWORKDIR /app\n\n# Copy package.json and package-lock.json\nCOPY package*.json ./\n\n# Install dependencies\nRUN npm ci\n\n# Copy the rest of the code\nCOPY . .\n\n# Expose the port the app will run on\nEXPOSE 3000\n\n# Start the application\nCMD [\"npm\", \"run\", \"node\"]\n" ∧
    ¬ (("EXPOSE 5" : String).data <:+: (generateNodeDockerfile splitScriptsPj).data) := by
  refine ⟨by decide, by decide, by decide⟩

/-- C4 (amended): for every detection result and base name the compose
file is the single-service document keyed by the service name with
`build: .`, a string-quoted `port:port` mapping, the `.:/app` bind mount
and one commented-out environment line, where the port is `80` for react,
`8000` for python and the fixed `3000` for node and generic (the compose
generator never consults the manifest's `PORT=` hints). -/
theorem C4_compose_document :
    (∀ (r : DetectionResult) (baseName : String),
      generateDockerCompose r baseName =
        "version: '3'\nservices:\n  " ++ serviceName baseName ++
          ":\n    build: .\n    ports:\n      - \"" ++ composePort r.type ++ ":" ++
          composePort r.type ++
          "\"\n    volumes:\n      - .:/app\n    # environment:\n    #   - NODE_ENV=development\n") ∧
    composePort AppType.react = "80" ∧
    composePort AppType.python = "8000" ∧
    composePort AppType.node = "3000" ∧
    composePort AppType.generic = "3000" :=
  ⟨fun _ _ => rfl, by decide, by decide, by decide, by decide⟩

set_option maxRecDepth 20000 in
/-- C4 counterexample: a node manifest whose scripts set `PORT=4000`.  The
node build file would derive port `4000`, yet the compose file maps
`"3000:3000"` and mentions `4000` nowhere, so the compose port is not the
`PORT=`-scan-derived port the claim describes. -/
theorem C4_counterexample :
    nodePort portScriptPj = "4000" ∧
    generateDockerCompose ⟨AppType.node, some portScriptPj⟩ "myapp" =
      "version: '3'\nservices:\n  myapp:\n    build: .\n    ports:\n      - \"3000:3000\"\n    volumes:\n      - .:/app\n    # environment:\n    #   - NODE_ENV=development\n" ∧
    ¬ (("4000" : String).data <:+:
      (generateDockerCompose ⟨AppType.node, some portScriptPj⟩ "myapp").data) := by
  refine ⟨by decide, by decide, by decide⟩

set_option maxRecDepth 20000 in
/-- C6: with no manifest, a `.py` listing entry or a `requirements.txt`
yields the python classification, whose build file exposes port 8000 and
whose ignore file contains the virtual-environment pattern `venv/`; with
none of the signals the classification is generic. -/
theorem C6_python_detection (d : Dir) (hm : d.manifestFile = none) :
    ((d.listing.any (fun file => file.endsWith ".py") = true ∨
        d.listing.contains "requirements.txt" = true) →
      detectAppType d = Except.ok ⟨AppType.python, none⟩ ∧
      ("\nEXPOSE 8000\n" : String).data <:+:
        (generateDockerfile ⟨AppType.python, none⟩).data ∧
      ("\nvenv/\n" : String).data <:+:
        (generateDockerignore ⟨AppType.python, none⟩).data) ∧
    ((d.listing.any (fun file => file.endsWith ".py") = false ∧
        d.listing.contains "requirements.txt" = false) →
      detectAppType d = Except.ok ⟨AppType.generic, none⟩) := by
  constructor
  · intro hsig
    have hb : (d.listing.any (fun file => file.endsWith ".py") ||
        d.listing.contains "requirements.txt") = true := by
      rcases hsig with h | h
      · rw [h, Bool.true_or]
      · rw [h, Bool.or_true]
    refine ⟨?_, by decide, by decide⟩
    simp only [detectAppType, hm]
    rw [if_pos hb]
  · rintro ⟨h1, h2⟩
    have hb : ¬ ((d.listing.any (fun file => file.endsWith ".py") ||
        d.listing.contains "requirements.txt") = true) := by
      rw [h1, h2]; simp
    simp only [detectAppType, hm]
    rw [if_neg hb]

set_option maxRecDepth 20000 in
/-- C6 witness: a directory holding only `requirements.txt` is classified
python and rendered with port 8000 and the `venv/` ignore pattern. -/
theorem C6_python_detection_witness :
    detectAppType ⟨none, ["requirements.txt"]⟩ = Except.ok ⟨AppType.python, none⟩ ∧
    ("\nEXPOSE 8000\n" : String).data <:+:
      (generateDockerfile ⟨AppType.python, none⟩).data ∧
    ("\nvenv/\n" : String).data <:+:
      (generateDockerignore ⟨AppType.python, none⟩).data :=
  (C6_python_detection ⟨none, ["requirements.txt"]⟩ rfl).1 (Or.inr (by decide))

/-- C7 (amended): the node build file launches via `npm run` applied to
the first space-delimited token of `manifest.scripts.start` when that
script is present with a non-empty value, else of the default
`node server.js`; the spec's example yields token `nodemon`. -/
theorem C7_start_token :
    (∀ (pj : PackageJson) (s : String), scriptLookup pj "start" = some s → s ≠ "" →
      ∃ a : String,
        generateNodeDockerfile pj =
          a ++ ("CMD [\"npm\", \"run\", \"" ++ firstSpaceToken s ++ "\"]\n")) ∧
    (∀ pj : PackageJson,
      scriptLookup pj "start" = none ∨ scriptLookup pj "start" = some "" →
      ∃ a : String,
        generateNodeDockerfile pj =
          a ++ ("CMD [\"npm\", \"run\", \"" ++ firstSpaceToken "node server.js" ++ "\"]\n")) ∧
    firstSpaceToken "node server.js" = "node" ∧
    firstSpaceToken "nodemon --watch src index.js" = "nodemon" := by
  refine ⟨fun pj s h hs => ?_, fun pj h => ?_, by decide, by decide⟩
  · have hjs : jsOrDefault (scriptLookup pj "start") "node server.js" = s := by
      rw [h]; simp [jsOrDefault, hs]
    obtain ⟨a, ha⟩ := generateNodeDockerfile_cmd_decomp pj
    rw [hjs] at ha
    exact ⟨a, ha⟩
  · have hjs : jsOrDefault (scriptLookup pj "start") "node server.js" = "node server.js" := by
      rcases h with h | h <;> rw [h] <;> simp [jsOrDefault]
    obtain ⟨a, ha⟩ := generateNodeDockerfile_cmd_decomp pj
    rw [hjs] at ha
    exact ⟨a, ha⟩

/-- C7 witness: the start script `nodemon --watch src index.js` is
launched via its first token. -/
theorem C7_start_token_witness :
    ∃ a : String,
      generateNodeDockerfile ⟨[], [], some [("start", "nodemon --watch src index.js")]⟩ =
        a ++ ("CMD [\"npm\", \"run\", \"" ++ firstSpaceToken "nodemon --watch src index.js" ++ "\"]\n") :=
  C7_start_token.1 _ "nodemon --watch src index.js" (by decide) (by decide)

set_option maxRecDepth 20000 in
/-- C7 counterexample: (a) the start script `"node\tserver.js x"` — its
first whitespace-delimited token is `node`, but the source splits on
spaces only, so the rendered launch token is `node\tserver.js` (it
contains the tab) and the file does not invoke the token `node`;
(b) the present-but-empty start script `""` — the claim's launch token
would be the empty first token of `""`, but the source's truthiness
default makes the rendered token `node`. -/
theorem C7_counterexample :
    (firstWhitespaceToken "node\tserver.js x" = "node" ∧
      firstSpaceToken "node\tserver.js x" = "node\tserver.js" ∧
      ("CMD [\"npm\", \"run\", \"node\tserver.js\"]\n" : String).data <:+:
        (generateNodeDockerfile tabStartPj).data ∧
      ¬ (("CMD [\"npm\", \"run\", \"node\"]" : String).data <:+:
        (generateNodeDockerfile tabStartPj).data)) ∧
    (scriptLookup emptyStartPj "start" = some "" ∧
      firstWhitespaceToken "" = "" ∧
      ("CMD [\"npm\", \"run\", \"node\"]\n" : String).data <:+:
        (generateNodeDockerfile emptyStartPj).data ∧
      ¬ (("CMD [\"npm\", \"run\", \"\"]" : String).data <:+:
        (generateNodeDockerfile emptyStartPj).data)) := by
  refine ⟨⟨by decide, by decide, by decide, by decide⟩,
    ⟨by decide, by decide, by decide, by decide⟩⟩

set_option maxRecDepth 20000 in
/-- C10: for every base name the generic compose file carries the live,
uncommented port mapping `"3000:3000"` (a full `ports:` block line in the
document), even though the generic build file keeps its install, expose
and start lines only as `#`-comments (no uncommented `EXPOSE`, `CMD` or
`RUN` line exists in it). -/
theorem C10_generic_compose_live_port :
    (∀ baseName : String,
      ("\n    ports:\n      - \"3000:3000\"\n    volumes:\n" : String).data <:+:
        (generateDockerCompose ⟨AppType.generic, none⟩ baseName).data) ∧
    ("\n# EXPOSE 8080\n" : String).data <:+: generateGenericDockerfile.data ∧
    ("\n# CMD [\"./start.sh\"]\n" : String).data <:+: generateGenericDockerfile.data ∧
    ("\n# RUN apt-get update && apt-get install -y some-package\n" : String).data <:+:
      generateGenericDockerfile.data ∧
    ¬ (("\nEXPOSE" : String).data <:+: generateGenericDockerfile.data) ∧
    ¬ (("\nCMD" : String).data <:+: generateGenericDockerfile.data) ∧
    ¬ (("\nRUN" : String).data <:+: generateGenericDockerfile.data) := by
  refine ⟨fun baseName => ?_, by decide, by decide, by decide, by decide, by decide, by decide⟩
  refine str_infix_of_decomp
    ("version: '3'\nservices:\n  " ++ serviceName baseName ++ ":\n    build: .")
    "      - .:/app\n    # environment:\n    #   - NODE_ENV=development\n" ?_
  show "version: '3'\nservices:\n  " ++ serviceName baseName ++
      ":\n    build: .\n    ports:\n      - \"" ++ "3000" ++ ":" ++ "3000" ++
      "\"\n    volumes:\n      - .:/app\n    # environment:\n    #   - NODE_ENV=development\n" = _
  rw [show (":\n    build: .\n    ports:\n      - \"" : String) =
      ":\n    build: ." ++ "\n    ports:\n      - \"" from rfl]
  rw [show ("\"\n    volumes:\n      - .:/app\n    # environment:\n    #   - NODE_ENV=development\n" : String) =
      "\"\n    volumes:\n" ++ "      - .:/app\n    # environment:\n    #   - NODE_ENV=development\n" from rfl]
  rw [show ("\n    ports:\n      - \"3000:3000\"\n    volumes:\n" : String) =
      "\n    ports:\n      - \"" ++ "3000" ++ ":" ++ "3000" ++ "\"\n    volumes:\n" from rfl]
  simp only [String.append_assoc]

end DockerfileGen
